import Mathlib

/-!
Verification of the MailBridge repository (form handler and mail poll daemon).

The Python sources `form_handler.py` and `icloud_mail_daemon.py` are embedded
shallowly: Python strings become `String`, floats used in entropy computations
become `ℝ`, float threshold comparisons on exact fractions become `ℚ`
comparisons, Redis state becomes explicit state passing, and raised exceptions
become `Except` values.
-/

namespace MailBridge

/-! ## Basic string helpers (embedding Python string primitives) -/

/-- Scan for `n` as a contiguous sublist of the second argument. -/
def substr_aux (n : List Char) : List Char → Bool
  | [] => n.isEmpty
  | c :: rest => n.isPrefixOf (c :: rest) || substr_aux n rest

/-- Embeds the Python substring test `needle in hay`. -/
def substr_in (needle hay : String) : Bool :=
  substr_aux needle.toList hay.toList

/-- Embeds Python `str.startswith`. -/
def starts_with (s p : String) : Bool :=
  p.toList.isPrefixOf s.toList

/-- Embeds the Python test `not s.strip()`: true iff every character of `s`
is whitespace. -/
def stripped_empty (s : String) : Bool :=
  s.toList.all Char.isWhitespace

/-- Embeds Python `str.strip()`: drop whitespace at both ends. -/
def py_strip (s : String) : String :=
  String.mk (((s.toList.dropWhile Char.isWhitespace).reverse.dropWhile Char.isWhitespace).reverse)

/-- One fuelled step of Python `str.replace`: replaces every non-overlapping
occurrence of `needle` (assumed nonempty) left to right.  The fuel is an upper
bound on the number of characters still to be scanned, so structural recursion
suffices and concrete inputs evaluate by `decide`. -/
def replace_go (needle repl : List Char) : Nat → List Char → List Char
  | 0, l => l
  | _ + 1, [] => []
  | fuel + 1, c :: rest =>
    if needle ≠ [] ∧ needle.isPrefixOf (c :: rest) then
      repl ++ replace_go needle repl fuel ((c :: rest).drop needle.length)
    else
      c :: replace_go needle repl fuel rest

/-- Embeds Python `s.replace(needle, repl)`. -/
def py_replace (s needle repl : String) : String :=
  String.mk (replace_go needle.toList repl.toList s.toList.length s.toList)

/-- The cleaned text of `form_handler.py` lines 178-179 and 484:
`re.sub(r'[^a-zA-Z]', '', text.lower())` keeps exactly the characters that are
lower-case ASCII letters after lowering. -/
def clean_text (s : String) : String :=
  String.mk ((s.toList.map Char.toLower).filter Char.isLower)

/-- Length of the maximal run of consecutive characters satisfying `p`
starting at the head of the list. -/
def head_run (p : Char → Bool) : List Char → Nat
  | [] => 0
  | c :: rest => if p c then head_run p rest + 1 else 0

/-- The maximal run length of consecutive characters satisfying `p` anywhere in
the list; embeds the regex searches for character runs such as
`[bcdfghjklmnpqrstvwxyz]{6,}`. -/
def max_run (p : Char → Bool) : List Char → Nat
  | [] => 0
  | c :: rest => max (head_run p (c :: rest)) (max_run p rest)

/-- True iff the text (viewed as lower-case) contains a run of at least `n`
consecutive characters satisfying `p`. -/
def has_run (p : Char → Bool) (n : Nat) (s : String) : Bool :=
  n ≤ max_run p s.toList

/-- ASCII consonant test used by the classifier regexes. -/
def is_consonant (c : Char) : Bool :=
  c.isLower && !(c = 'a' ∨ c = 'e' ∨ c = 'i' ∨ c = 'o' ∨ c = 'u')

/-- ASCII vowel test used by the classifier regexes. -/
def is_vowel (c : Char) : Bool :=
  c = 'a' ∨ c = 'e' ∨ c = 'i' ∨ c = 'o' ∨ c = 'u'

/-- Embeds the regex `(.)\1{2,}`: some character occurs at least three times
consecutively. -/
def has_triple_repeat (s : String) : Bool :=
  triple_aux s.toList
where
  triple_aux : List Char → Bool
    | c1 :: c2 :: c3 :: rest =>
      (c1 = c2 ∧ c2 = c3) ∨ triple_aux (c2 :: c3 :: rest)
    | _ => false

/-! ## Shannon entropy (`FormSubmission._calculate_entropy`, lines 251-265) -/

open Real in
/-- The inner entropy accumulation: for each distinct character `c` of `l`
(`Counter(l).values()`), subtract `p * log2 p` where `p = count / len`. -/
noncomputable def entropy_sum (l : List Char) : ℝ :=
  -((l.dedup.map (fun c =>
      ((l.count c : ℝ) / (l.length : ℝ)) * logb 2 ((l.count c : ℝ) / (l.length : ℝ)))).sum)

/-- Embeds `FormSubmission._calculate_entropy`: `Counter(text.lower())`,
`p = count / len(text)`, `entropy -= p * log2(p)`, with the `len < 2 → 0`
guard. -/
noncomputable def calculate_entropy (s : String) : ℝ :=
  if s.length < 2 then 0 else entropy_sum (s.toList.map Char.toLower)

/-! ## Classifier word and pattern lists -/

/-- The fixed common-English-word list of `_is_high_entropy_random` and
`_is_random_looking_string`. -/
def common_words : List String :=
  ["the", "and", "or", "but", "in", "on", "at", "to", "for", "of", "with",
   "by", "from", "up", "about", "into", "through", "during", "before",
   "after", "above", "below", "between", "among", "would", "like", "request",
   "access", "platform", "please", "thank", "you", "your", "help", "need",
   "want", "get", "can", "will", "should", "could", "may", "might", "must",
   "have", "has", "had", "do", "does", "did", "be", "am", "is", "are", "was",
   "were", "been", "being"]

/-- `sum(1 for word in common_words if word in text_lower)`. -/
def common_word_count (text_lower : String) : Nat :=
  (common_words.filter (fun w => substr_in w text_lower)).length

/-- The keyboard-smash equality list of `_is_spam` line 227. -/
def keyboard_equal_list : List String :=
  ["asdf", "qwer", "zxcv", "hjkl", "fdsa", "rewq", "vcxz", "lkjh"]

/-- The keyboard-sequence substring list of `_is_random_looking_string`
lines 509-516 (also the tail of `unusual_patterns` in
`_has_unusual_character_distribution`). -/
def keyboard_sub_list : List String :=
  ["qwerty", "asdfgh", "zxcvbn", "qwer", "asdf", "zxcv"]

/-- Number of consonants of a cleaned text: `len(re.sub(r'[aeiou]', '', t))`
for `t` consisting of lower-case letters. -/
def consonant_count (s : String) : Nat :=
  (s.toList.filter (fun c => !is_vowel c)).length

/-- Number of vowels of a cleaned text: `len(re.sub(r'[^aeiou]', '', t))`. -/
def vowel_count (s : String) : Nat :=
  (s.toList.filter is_vowel).length

/-- The fraction `consonants / (consonants + vowels)` as an exact rational
(the float thresholds 0.8 and 0.6 are embedded as `4/5` and `3/5`). -/
def consonant_frac (s : String) : ℚ :=
  (consonant_count s : ℚ) / ((consonant_count s : ℚ) + (vowel_count s : ℚ))

/-- Count of characters drawn from the rare-letter set `qxzjk`. -/
def rare_count (s : String) : Nat :=
  (s.toList.filter (fun c => c = 'q' ∨ c = 'x' ∨ c = 'z' ∨ c = 'j' ∨ c = 'k')).length

/-- Embeds Python `str.lower` (character-wise lowering). -/
def py_lower (s : String) : String :=
  String.mk (s.toList.map Char.toLower)

/-! ## Layer A helper classifiers (`form_handler.py` lines 267-382) -/

open Classical in
/-- Embeds `FormSubmission._is_high_entropy_random` (lines 267-292). -/
noncomputable def is_high_entropy_random (text : String) : Bool :=
  if text.length < 6 then false
  else if 15 < text.length ∧ 3 ≤ common_word_count (py_lower text) then false
  else if calculate_entropy text > 3.8 ∧ 8 ≤ text.length then true
  else if calculate_entropy text > 3.6 ∧ text.toList.any Char.isUpper ∧
      text.toList.any (fun c => c.isLower) then true
  else false

/-- Number of adjacent character pairs whose `isupper()` values differ
(lines 300-303). -/
def case_transitions : List Char → Nat
  | c1 :: c2 :: rest =>
    (if c1.isUpper ≠ c2.isUpper then 1 else 0) + case_transitions (c2 :: rest)
  | _ => 0

/-- Number of length-3 windows whose case alternates (lines 311-315). -/
def alternating_count : List Char → Nat
  | c1 :: c2 :: c3 :: rest =>
    (if c1.isUpper ≠ c2.isUpper ∧ c2.isUpper ≠ c3.isUpper then 1 else 0) +
      alternating_count (c2 :: c3 :: rest)
  | _ => 0

/-- Embeds `FormSubmission._has_suspicious_case_pattern` (lines 294-321);
the float thresholds 0.6 and 0.4 become `3/5` and `2/5`. -/
def has_suspicious_case_pattern (text : String) : Bool :=
  if text.length < 8 then false
  else if (case_transitions text.toList : ℚ) / ((text.length - 1 : Nat) : ℚ) > 3/5 then true
  else if 2 < text.length ∧
      (alternating_count text.toList : ℚ) / ((text.length - 2 : Nat) : ℚ) > 2/5 then true
  else false

/-- Embeds `FormSubmission._has_unusual_character_distribution`
(lines 323-363). -/
def has_unusual_character_distribution (text : String) : Bool :=
  if text.length < 6 then false
  else if has_run is_consonant 6 (py_lower text) then true
  else if has_run is_vowel 5 (py_lower text) then true
  else if (rare_count (py_lower text) : ℚ) > (text.length : ℚ) * (2/5) then true
  else if has_run is_consonant 5 (py_lower text) ∨ has_run is_vowel 4 (py_lower text) ∨
      keyboard_sub_list.any (fun p => substr_in p (py_lower text)) then true
  else false

open Classical in
/-- Embeds `FormSubmission._is_random_length_pattern` (lines 365-382). -/
noncomputable def is_random_length_pattern (text : String) : Bool :=
  if text.length < 6 then false
  else if text.length ∈ [8, 10, 12, 14, 16, 20, 24, 32] ∧ calculate_entropy text > 3.2
    then true
  else false

/-! ## Form submissions (`FormSubmission`, lines 143-382) -/

/-- The `FormSubmission` pydantic model. -/
structure FormSubmission where
  name : String
  email : String
  subject : String
  content : String
  captcha_token : Option String := none
  website : Option String := none
deriving Repr, DecidableEq

open Classical in
/-- Embeds `FormSubmission._is_spam` (lines 170-249): the successive
`return True` blocks become an else-if chain in source order. -/
noncomputable def is_spam (s : FormSubmission) : Bool :=
  let name_clean := clean_text s.name
  let content_clean := clean_text s.content
  if 3 < name_clean.length ∧ 0 < consonant_count name_clean ∧
      0 < vowel_count name_clean ∧ consonant_frac name_clean > 4/5 then true
  else if 5 < name_clean.length ∧ has_triple_repeat name_clean then true
  else if 5 < content_clean.length ∧ 0 < consonant_count content_clean ∧
      0 < vowel_count content_clean ∧ consonant_frac content_clean > 4/5 then true
  else if 5 < content_clean.length ∧ has_triple_repeat content_clean then true
  else if 3 ≤ name_clean.length ∧ name_clean.length ≤ 8 ∧
      4 ≤ consonant_count name_clean ∧ vowel_count name_clean ≤ 2 ∧
      consonant_frac name_clean > 3/5 then true
  else if 4 ≤ content_clean.length ∧ content_clean.length ≤ 15 ∧
      5 ≤ consonant_count content_clean ∧ vowel_count content_clean ≤ 3 ∧
      consonant_frac content_clean > 3/5 then true
  else if name_clean ∈ keyboard_equal_list ∨ content_clean ∈ keyboard_equal_list then true
  else if is_high_entropy_random name_clean || is_high_entropy_random content_clean then true
  else if has_suspicious_case_pattern s.name || has_suspicious_case_pattern s.content then
    true
  else if has_unusual_character_distribution name_clean ||
      has_unusual_character_distribution content_clean then true
  else if is_random_length_pattern name_clean || is_random_length_pattern content_clean then
    true
  else false

/-- Whether the honeypot check `if self.website and self.website.strip():`
fires. -/
def website_filled : Option String → Bool
  | none => false
  | some w => !(w == "") && !stripped_empty w

/-- Embeds `FormSubmission.validate` (lines 151-168); each `raise ValueError`
becomes an `Except.error` carrying the message. -/
noncomputable def validate (s : FormSubmission) : Except String Unit :=
  if stripped_empty s.name ∨ 100 < s.name.length then .error "Invalid name"
  else if stripped_empty s.email ∨ ¬ substr_in "@" s.email ∨ 254 < s.email.length then
    .error "Invalid email"
  else if stripped_empty s.subject ∨ 200 < s.subject.length then .error "Invalid subject"
  else if stripped_empty s.content ∨ 10000 < s.content.length then .error "Invalid content"
  else if website_filled s.website then .error "Bot detected"
  else if is_spam s then .error "Spam detected"
  else .ok ()

/-! ## Layer B quick classifier (`_is_random_looking_string`, lines 465-522) -/

open Classical in
/-- Embeds `_is_random_looking_string`: short-circuit on length, common-word
exception for long text, then entropy (threshold 3.5, computed inline on the
cleaned text without re-lowering), consonant/vowel runs and keyboard
sequences on the cleaned text. -/
noncomputable def is_random_looking_string (text : String) : Bool :=
  if text.length < 6 then false
  else if 15 < text.length ∧ 3 ≤ common_word_count (py_lower text) then false
  else
    let ct := clean_text text
    if 6 ≤ ct.length ∧ entropy_sum ct.toList > 3.5 then true
    else if has_run is_consonant 6 ct then true
    else if has_run is_vowel 5 ct then true
    else if keyboard_sub_list.any (fun p => substr_in p ct) then true
    else false

/-! ## Cross-submission behavioral analysis (`_is_suspicious_behavior`,
lines 385-462) -/

/-- The only Python runtime error relevant to this development. -/
inductive PyError where
  | attributeError
deriving Repr, DecidableEq

/-- One entry of the `submissions` history list. -/
structure SubmissionRecord where
  timestamp : Nat
  name : String
  email : String
  content : String
  is_random_name : Bool
  is_random_content : Bool
deriving Repr, DecidableEq

/-- The runtime type of the `email_domains` field: a Python `set` when the
profile was freshly constructed in this call (line 402), a JSON-deserialized
`list` when it was loaded from the store (line 396, having been serialized at
line 435). -/
inductive DomainsField where
  | pySet (s : List String)
  | jsonList (l : List String)
deriving Repr, DecidableEq

/-- Underlying domains, forgetting the runtime type (used for
`len(pattern_data["email_domains"])` and for serialization). -/
def DomainsField.toList : DomainsField → List String
  | .pySet s => s
  | .jsonList l => l

/-- Embeds `pattern_data["email_domains"].add(domain)` (line 418): set
insertion on a `set`, an `AttributeError` on a `list` (lists have no `.add`
method). -/
def domains_add : DomainsField → String → Except PyError DomainsField
  | .pySet s, d => .ok (.pySet (if d ∈ s then s else s ++ [d]))
  | .jsonList _, _ => .error .attributeError

/-- The per-origin `BehaviorProfile` dict stored under `behavior:{ip}`. -/
structure PatternData where
  submissions : List SubmissionRecord
  random_names : Nat
  random_content : Nat
  email_domains : DomainsField
  first_seen : Nat
deriving Repr, DecidableEq

/-- Split a character list at every occurrence of `sep` (Python
`str.split(sep)` for a one-character separator). -/
def split_at_char (sep : Char) (acc : List Char) : List Char → List String
  | [] => [String.mk acc.reverse]
  | c :: rest =>
    if c = sep then String.mk acc.reverse :: split_at_char sep [] rest
    else split_at_char sep (c :: acc) rest

/-- Embeds `submission.email.split('@')[1] if '@' in submission.email
else ''`. -/
def email_domain (e : String) : String :=
  if substr_in "@" e then (split_at_char '@' [] e.toList).getD 1 "" else ""

/-- Embeds `_is_suspicious_behavior`: the stored profile for the origin is
passed in (JSON-deserialized, so its `email_domains` is a `.jsonList`, or
`none` when absent), and the updated profile that `setex` would store is
returned along with the suspicion verdict.  The float thresholds 0.8 and 0.9
become `4/5` and `9/10`. -/
noncomputable def is_suspicious_behavior (existing : Option PatternData)
    (s : FormSubmission) (now : Nat) : Except PyError (Bool × PatternData) :=
  let pd := match existing with
    | some p => p
    | none => ⟨[], 0, 0, .pySet [], now⟩
  let is_random_name := is_random_looking_string s.name
  let is_random_content := is_random_looking_string s.content
  let rn := pd.random_names + (if is_random_name then 1 else 0)
  let rc := pd.random_content + (if is_random_content then 1 else 0)
  match domains_add pd.email_domains (email_domain s.email) with
  | .error e => .error e
  | .ok doms =>
    let subs := pd.submissions ++
      [⟨now, s.name, s.email, s.content, is_random_name, is_random_content⟩]
    let subs := if 10 < subs.length then subs.drop (subs.length - 10) else subs
    let saved : PatternData := ⟨subs, rn, rc, .jsonList doms.toList, pd.first_seen⟩
    let total := subs.length
    let verdict :=
      if 2 ≤ total then
        if (rn : ℚ) / (total : ℚ) ≥ 4/5 ∧ (rc : ℚ) / (total : ℚ) ≥ 4/5 ∧
            2 ≤ doms.toList.length then true
        else if (rc : ℚ) / (total : ℚ) ≥ 9/10 then true
        else false
      else false
    .ok (verdict, saved)

/-! ## Rate limiter (`submit_form` lines 609-615) -/

/-- The Redis value at `rate_limit:{ip}:{form_key}` together with its expiry
instant (`expire key 60` sets it to `now + 60`; the key is visible while
`now < expires_at`). -/
structure RateEntry where
  count : Nat
  expires_at : Nat
deriving Repr, DecidableEq

inductive RateVerdict where
  | allowed
  | tooMany
deriving Repr, DecidableEq

/-- Embeds lines 609-615: `get`, reject when the counter exists and is `≥ 5`,
otherwise `incr` (which creates the key at 1 when absent or expired) and
`expire key 60`. -/
def rate_check (now : Nat) (st : Option RateEntry) : RateVerdict × Option RateEntry :=
  let current : Option Nat := match st with
    | some e => if now < e.expires_at then some e.count else none
    | none => none
  match current with
  | some c => if 5 ≤ c then (.tooMany, st) else (.allowed, some ⟨c + 1, now + 60⟩)
  | none => (.allowed, some ⟨1, now + 60⟩)

/-! ## The submission endpoint (`submit_form`, lines 535-640) -/

/-- One configured form (`config["forms"]` entry). -/
structure ChannelConfig where
  key : String
  to_email : List String
  from_name : String
  allowed_domains : List String
  captcha_provider : Option String := none
deriving Repr, DecidableEq

/-- The observable outcome of `submit_form`: each `HTTPException` branch, the
propagated `AttributeError` (an unhandled 500), and the success response. -/
inductive SubmitOutcome where
  | notFound
  | originRequired
  | originNotAllowed
  | invalidSubmission
  | internalError (e : PyError)
  | suspicious
  | tooManyRequests
  | captchaRequired
  | captchaInvalid
  | success
deriving Repr, DecidableEq

/-- `origin.replace("https://", "").replace("http://", "")` (line 561). -/
def strip_scheme (origin : String) : String :=
  py_replace (py_replace origin "https://" "") "http://" ""

/-- The captcha stage of `submit_form` (lines 617-629): when the form's
captcha provider is "recaptcha", a missing token or a failed verification
(the external result is the oracle `captcha_ok`) rejects, otherwise the
success response is returned. -/
noncomputable def captcha_stage (fc : ChannelConfig) (sub : FormSubmission)
    (captcha_ok : Bool) : SubmitOutcome :=
  if fc.captcha_provider = some "recaptcha" then
    match sub.captcha_token with
    | none => .captchaRequired
    | some _ => if captcha_ok then .success else .captchaInvalid
  else .success

/-- The stages of `submit_form` after validation (lines 604-615): behavioral
analysis (an `AttributeError` escapes as a 500, a true verdict is a 400),
then the rate limiter, then `captcha_stage`. -/
noncomputable def post_validation (fc : ChannelConfig) (sub : FormSubmission)
    (behavior : Option PatternData) (rate : Option RateEntry) (now : Nat)
    (captcha_ok : Bool) : SubmitOutcome :=
  match is_suspicious_behavior behavior sub now with
  | .error e => .internalError e
  | .ok (true, _) => .suspicious
  | .ok (false, _) =>
    match rate_check now rate with
    | (.tooMany, _) => .tooManyRequests
    | (.allowed, _) => captcha_stage fc sub captcha_ok

/-- The stages of `submit_form` after the origin check (lines 567-640):
field validation (lines 597-602), then `post_validation`. -/
noncomputable def post_origin (fc : ChannelConfig) (sub : FormSubmission)
    (behavior : Option PatternData) (rate : Option RateEntry) (now : Nat)
    (captcha_ok : Bool) : SubmitOutcome :=
  match validate sub with
  | .error _ => .invalidSubmission
  | .ok _ => post_validation fc sub behavior rate now captcha_ok

/-- Embeds the `submit_form` handler.  External effects are explicit inputs:
the stored behavior profile for the caller's IP, the rate-limit entry for
`(ip, form_key)`, the clock, and the reCAPTCHA verification result.  The
pipeline order is exactly that of the source: form lookup, origin check
(lines 555-565), then `post_origin` (dispatch is fire-and-forget and does not
affect the response). -/
noncomputable def submit_form (forms : List ChannelConfig) (form_key : String)
    (origin : Option String) (sub : FormSubmission)
    (behavior : Option PatternData) (rate : Option RateEntry) (now : Nat)
    (captcha_ok : Bool) : SubmitOutcome :=
  match forms.find? (fun f => f.key == form_key) with
  | none => .notFound
  | some fc =>
    match origin with
    | none => .originRequired
    | some org =>
      let origin_domain := strip_scheme org
      if ¬ fc.allowed_domains.any (fun d => substr_in d origin_domain) then
        .originNotAllowed
      else post_origin fc sub behavior rate now captcha_ok

/-! ## The mail daemon (`icloud_mail_daemon.py`) -/

/-- One alias entry of `responses.json`: the ordered subject-to-template map
(insertion order of the JSON object) and the signature block. -/
structure AliasConfig where
  subjects : List (String × String)
  signature : String
deriving Repr, DecidableEq

/-- A polled inbox message; `body` is the decoded text handed to
`extract_fields` (after the MIME/HTML preprocessing of lines 338-355, which
the claims under study do not depend on). -/
structure MailMessage where
  to_addr : String
  subject : String
  body : String
deriving Repr, DecidableEq

/-- The fields pulled out of a reply body by `extract_fields`. -/
structure ExtractedFields where
  name : Option String
  email : Option String
  subject : Option String
deriving Repr, DecidableEq

/-- The literal `</p>` that terminates each captured field. -/
def close_tag : List Char := ['<', '/', 'p', '>']

/-- The lazy group `(.+?)</p>`: the shortest nonempty newline-free prefix of
`l` that is immediately followed by `</p>`. -/
def min_capture (acc : List Char) : List Char → Option (List Char)
  | [] => none
  | c :: rest =>
    if c = '\n' then none
    else if close_tag.isPrefixOf rest then some (acc ++ [c])
    else min_capture (acc ++ [c]) rest

/-- The `\s*` before the group, with regex backtracking: the engine tries the
longest whitespace run first and shortens it until the rest of the pattern
matches. -/
def ws_try (l : List Char) : Nat → Option (List Char)
  | 0 => min_capture [] l
  | w + 1 =>
    match min_capture [] (l.drop (w + 1)) with
    | some cap => some cap
    | none => ws_try l w

/-- Embeds `re.search(marker + r"\s*(.+?)</p>", body)` followed by
`.group(1).strip()`: scan for the leftmost occurrence of the literal marker
at which the rest of the pattern matches. -/
def search_field (marker : List Char) : List Char → Option String
  | [] => none
  | c :: rest =>
    if marker.isPrefixOf (c :: rest) then
      let tail := (c :: rest).drop marker.length
      match ws_try tail (tail.takeWhile Char.isWhitespace).length with
      | some cap => some (py_strip (String.mk cap))
      | none => search_field marker rest
    else search_field marker rest

/-- Embeds `extract_fields` (lines 66-90): all three labeled fields must
match or every field is `None`. -/
def extract_fields (body : String) : ExtractedFields :=
  let n := search_field "<b>Name:</b>".toList body.toList
  let e := search_field "<b>Email:</b>".toList body.toList
  let s := search_field "<b>Subject:</b>".toList body.toList
  match n, e, s with
  | some n', some e', some s' => ⟨some n', some e', some s'⟩
  | _, _, _ => ⟨none, none, none⟩

/-- Python truthiness of an optional string (`if fields["email"] and
fields["subject"]`). -/
def truthy : Option String → Bool
  | none => false
  | some s => !(s == "")

/-- Embeds the iCloud-mode subject matching of `process_new_emails`
(lines 328-332): the first configured subject, in insertion order, that the
header subject starts with. -/
def resolve_template (subjects : List (String × String)) (header_subject : String) :
    Option (String × String) :=
  subjects.find? (fun p => starts_with header_subject p.1)

/-- The observable per-message outcome of one poll pass. -/
structure PollResult where
  attempted_reply : Bool
  sent : Bool
  marked_read : Bool
deriving Repr, DecidableEq

/-- No action: the message is skipped, nothing is sent and it is not marked
read (so it stays unread). -/
def PollResult.skip : PollResult := ⟨false, false, false⟩

/-- The tail of the per-message body from line 357 on: extract the fields,
reply when the extracted email and subject are truthy (the reply send's
network outcome is the oracle `send_ok`), and mark as read exactly on
success (lines 389-393); on falsy fields, skip (line 395). -/
def process_fields (m : MailMessage) (send_ok : Bool) : PollResult :=
  let fields := extract_fields m.body
  if truthy fields.email && truthy fields.subject then
    if send_ok then ⟨true, true, true⟩ else ⟨true, false, false⟩
  else .skip

/-- The per-message body from line 315 on, once an alias has matched:
first-match subject resolution (lines 328-336, iCloud mode), skipping when no
configured subject is a prefix of the header subject. -/
def process_alias (cfg : AliasConfig) (m : MailMessage) (send_ok : Bool) : PollResult :=
  match resolve_template cfg.subjects m.subject with
  | none => .skip
  | some _ => process_fields m send_ok

/-- Embeds the per-message body of `process_new_emails` (lines 283-395,
iCloud mode): instance-email filter (line 298), first-match alias resolution
by case-insensitive substring (lines 303-311), then `process_alias`. -/
def process_message (instance_emails : List String)
    (response_config : List (String × AliasConfig)) (m : MailMessage)
    (send_ok : Bool) : PollResult :=
  if ¬ instance_emails.any (fun e => substr_in (py_lower e) (py_lower m.to_addr)) then
    .skip
  else
    match response_config.find? (fun a => substr_in (py_lower a.1) (py_lower m.to_addr)) with
    | none => .skip
    | some (_, cfg) => process_alias cfg m send_ok

/-! ## Concrete fixtures used by witnesses and counterexamples -/

/-- A legitimate-looking submission. -/
def demo_sub : FormSubmission := ⟨"Alice", "a@b.co", "Hi", "hi :)", none, none⟩

/-- The same submission with the honeypot field filled. -/
def bot_sub : FormSubmission := ⟨"Alice", "a@b.co", "Hi", "hi :)", none, some "spam-link"⟩

/-- A submission whose cleaned name has three consonants and one vowel. -/
def plan_sub : FormSubmission := ⟨"plan", "a@b.co", "Hi", "hello", none, none⟩

/-- A submission with random-looking name and body, first email domain. -/
def rand_sub1 : FormSubmission := ⟨"bcdfghjk", "x@a.com", "Hi", "bcdfghjk", none, none⟩

/-- A submission with random-looking name and body, second email domain. -/
def rand_sub2 : FormSubmission := ⟨"bcdfghjk", "x@b.org", "Hi", "bcdfghjk", none, none⟩

/-- A demo channel configuration. -/
def demo_form : ChannelConfig := ⟨"k1", ["e@x.com"], "Demo", ["example.com"], none⟩

/-- A demo forms table. -/
def demo_forms : List ChannelConfig := [demo_form]

/-- A keyboard-smash submission whose cleaned name has six consonants and one
vowel. -/
def smash_sub : FormSubmission := ⟨"bcdfgha", "a@b.co", "Hi", "hello", none, none⟩

/-- The stored behavior profile after `demo_sub` arrives at a fresh origin. -/
def demo_state : PatternData :=
  ⟨[⟨0, "Alice", "a@b.co", "hi :)", false, false⟩], 0, 0, .jsonList ["b.co"], 0⟩

/-- The stored behavior profile after `rand_sub1` arrives at a fresh origin. -/
def rand_state1 : PatternData :=
  ⟨[⟨0, "bcdfghjk", "x@a.com", "bcdfghjk", true, true⟩], 1, 1, .jsonList ["a.com"], 0⟩

/-! ## Helper lemmas -/

/-- Length guard of `_is_high_entropy_random`. -/
theorem is_high_entropy_random_of_short {s : String} (h : s.length < 6) :
    is_high_entropy_random s = false := by
  unfold is_high_entropy_random
  rw [if_pos h]

/-- Length guard of `_has_suspicious_case_pattern`. -/
theorem has_suspicious_case_pattern_of_short {s : String} (h : s.length < 8) :
    has_suspicious_case_pattern s = false := by
  unfold has_suspicious_case_pattern
  rw [if_pos h]

/-- Length guard of `_has_unusual_character_distribution`. -/
theorem has_unusual_character_distribution_of_short {s : String} (h : s.length < 6) :
    has_unusual_character_distribution s = false := by
  unfold has_unusual_character_distribution
  rw [if_pos h]

/-- Length guard of `_is_random_length_pattern`. -/
theorem is_random_length_pattern_of_short {s : String} (h : s.length < 6) :
    is_random_length_pattern s = false := by
  unfold is_random_length_pattern
  rw [if_pos h]

/-- Length guard of `_is_random_looking_string`. -/
theorem is_random_looking_string_of_short {s : String} (h : s.length < 6) :
    is_random_looking_string s = false := by
  unfold is_random_looking_string
  rw [if_pos h]

/-- Evaluation: the legitimate demo submission is not Layer-A spam. -/
theorem is_spam_demo : is_spam demo_sub = false := by
  have hfa : ¬ ((4 : ℚ)/5 < consonant_frac "alice") := by
    have h1 : consonant_count "alice" = 2 := by decide
    have h2 : vowel_count "alice" = 3 := by decide
    unfold consonant_frac
    rw [h1, h2]
    norm_num
  have hce : clean_text "Alice" = "alice" := by decide
  have hcc : clean_text "hi :)" = "hi" := by decide
  simp only [is_spam, demo_sub, hce, hcc]
  rw [if_neg (fun h => hfa h.2.2.2), if_neg (by decide), if_neg (by decide),
    if_neg (by decide), if_neg (fun h => absurd h.2.2.1 (by decide)),
    if_neg (fun h => absurd h.2.2.1 (by decide)), if_neg (by decide)]
  rw [if_neg (by
    rw [is_high_entropy_random_of_short (by decide),
      is_high_entropy_random_of_short (by decide)]
    decide)]
  rw [if_neg (by
    rw [has_suspicious_case_pattern_of_short (by decide),
      has_suspicious_case_pattern_of_short (by decide)]
    decide)]
  rw [if_neg (by
    rw [has_unusual_character_distribution_of_short (by decide),
      has_unusual_character_distribution_of_short (by decide)]
    decide)]
  rw [if_neg (by
    rw [is_random_length_pattern_of_short (by decide),
      is_random_length_pattern_of_short (by decide)]
    decide)]

/-- Evaluation: the demo submission passes `validate`. -/
theorem validate_demo : validate demo_sub = Except.ok () := by
  unfold validate
  rw [if_neg (by decide), if_neg (by decide), if_neg (by decide), if_neg (by decide),
    if_neg (by decide)]
  rw [is_spam_demo]
  rfl

/-- Evaluation: the name "plan" has a consonant-to-vowel count of 3 to 1 yet
is not Layer-A spam (its consonant fraction is 3/4, below the 0.8 cutoff). -/
theorem is_spam_plan : is_spam plan_sub = false := by
  have hfp : ¬ ((4 : ℚ)/5 < consonant_frac "plan") := by
    have h1 : consonant_count "plan" = 3 := by decide
    have h2 : vowel_count "plan" = 1 := by decide
    unfold consonant_frac
    rw [h1, h2]
    norm_num
  have hce : clean_text "plan" = "plan" := by decide
  have hcc : clean_text "hello" = "hello" := by decide
  simp only [is_spam, plan_sub, hce, hcc]
  rw [if_neg (fun h => hfp h.2.2.2), if_neg (by decide), if_neg (by decide),
    if_neg (by decide), if_neg (fun h => absurd h.2.2.1 (by decide)),
    if_neg (fun h => absurd h.2.2.1 (by decide)), if_neg (by decide)]
  rw [if_neg (by
    rw [is_high_entropy_random_of_short (by decide),
      is_high_entropy_random_of_short (by decide)]
    decide)]
  rw [if_neg (by
    rw [has_suspicious_case_pattern_of_short (by decide),
      has_suspicious_case_pattern_of_short (by decide)]
    decide)]
  rw [if_neg (by
    rw [has_unusual_character_distribution_of_short (by decide),
      has_unusual_character_distribution_of_short (by decide)]
    decide)]
  rw [if_neg (by
    rw [is_random_length_pattern_of_short (by decide),
      is_random_length_pattern_of_short (by decide)]
    decide)]

/-- Evaluation: the "plan" submission passes `validate` entirely. -/
theorem validate_plan : validate plan_sub = Except.ok () := by
  unfold validate
  rw [if_neg (by decide), if_neg (by decide), if_neg (by decide), if_neg (by decide),
    if_neg (by decide)]
  rw [is_spam_plan]
  rfl

/-- Evaluation: "bcdfghjk" is random-looking (by the entropy threshold if it
fires, and otherwise by its run of eight consonants). -/
theorem is_random_bcdfghjk : is_random_looking_string "bcdfghjk" = true := by
  unfold is_random_looking_string
  rw [if_neg (by decide), if_neg (by decide)]
  by_cases h : 6 ≤ (clean_text "bcdfghjk").length ∧
      entropy_sum (clean_text "bcdfghjk").toList > (3.5 : ℝ)
  · rw [if_pos h]
  · rw [if_neg h, if_pos (by decide : has_run is_consonant 6 (clean_text "bcdfghjk") = true)]

/-- Evaluation: short strings such as "Alice" are not random-looking. -/
theorem is_random_alice : is_random_looking_string "Alice" = false :=
  is_random_looking_string_of_short (by decide)

/-- Evaluation: the content "hi :)" is not random-looking. -/
theorem is_random_hi : is_random_looking_string "hi :)" = false :=
  is_random_looking_string_of_short (by decide)

/-- Evaluation: a first submission from a fresh origin is analyzed without
error and judged not suspicious, and the profile of `demo_sub` is stored. -/
theorem behavior_demo : is_suspicious_behavior none demo_sub 0 = .ok (false, demo_state) := by
  simp only [is_suspicious_behavior, demo_sub, is_random_alice, is_random_hi]
  simp +decide [domains_add, email_domain, DomainsField.toList, demo_state]

/-- Evaluation: the first random-looking submission is analyzed without error
(a single submission is never suspicious) and its profile is stored with one
recorded domain. -/
theorem behavior_first :
    is_suspicious_behavior none rand_sub1 0 = .ok (false, rand_state1) := by
  simp only [is_suspicious_behavior, rand_sub1, is_random_bcdfghjk]
  simp +decide [domains_add, email_domain, DomainsField.toList, rand_state1]

/-- The pipeline stages below the origin check can never produce the
forbidden-origin outcome. -/
theorem post_origin_ne_originNotAllowed (fc : ChannelConfig) (sub : FormSubmission)
    (behavior : Option PatternData) (rate : Option RateEntry) (now : Nat) (cok : Bool) :
    post_origin fc sub behavior rate now cok ≠ SubmitOutcome.originNotAllowed := by
  unfold post_origin
  cases hval : validate sub with
  | error e => simp
  | ok u =>
    unfold post_validation
    cases hbeh : is_suspicious_behavior behavior sub now with
    | error e => simp
    | ok p =>
      obtain ⟨b, st⟩ := p
      cases b with
      | true => simp
      | false =>
        rcases hrc : rate_check now rate with ⟨v, st2⟩
        cases v with
        | tooMany => simp
        | allowed =>
          unfold captcha_stage
          by_cases hcap : fc.captcha_provider = some "recaptcha"
          · rw [if_pos hcap]
            cases sub.captcha_token with
            | none => simp
            | some t => cases cok <;> simp
          · rw [if_neg hcap]
            simp

/-- If the honeypot condition fires, `validate` raises (whatever the earlier
field checks do). -/
theorem validate_error_of_website {s : FormSubmission}
    (hwf : website_filled s.website = true) : ∃ e, validate s = Except.error e := by
  unfold validate
  by_cases h1 : stripped_empty s.name = true ∨ 100 < s.name.length
  · rw [if_pos h1]; exact ⟨_, rfl⟩
  rw [if_neg h1]
  by_cases h2 : stripped_empty s.email = true ∨ ¬ substr_in "@" s.email = true ∨
    254 < s.email.length
  · rw [if_pos h2]; exact ⟨_, rfl⟩
  rw [if_neg h2]
  by_cases h3 : stripped_empty s.subject = true ∨ 200 < s.subject.length
  · rw [if_pos h3]; exact ⟨_, rfl⟩
  rw [if_neg h3]
  by_cases h4 : stripped_empty s.content = true ∨ 10000 < s.content.length
  · rw [if_pos h4]; exact ⟨_, rfl⟩
  rw [if_neg h4]
  rw [if_pos hwf]
  exact ⟨_, rfl⟩

/-- A submission that fails `validate` is answered with the generic 400
outcome once the form and origin checks pass. -/
theorem pipeline_invalid {forms : List ChannelConfig} {form_key org : String}
    {fc : ChannelConfig} {s : FormSubmission} {behavior : Option PatternData}
    {rate : Option RateEntry} {now : Nat} {cok : Bool}
    (hfind : forms.find? (fun f => f.key == form_key) = some fc)
    (hdom : fc.allowed_domains.any (fun d => substr_in d (strip_scheme org)) = true)
    (hv : ∃ e, validate s = Except.error e) :
    submit_form forms form_key (some org) s behavior rate now cok = .invalidSubmission := by
  obtain ⟨e, he⟩ := hv
  unfold submit_form
  rw [hfind]
  dsimp only
  rw [if_neg (by simp [hdom])]
  unfold post_origin
  rw [he]

/-- On the demo data, any origin that passes the code's containment test
leads to the success outcome end to end. -/
theorem submit_demo_success (org : String)
    (hpass : demo_form.allowed_domains.any (fun d => substr_in d (strip_scheme org)) = true) :
    submit_form demo_forms "k1" (some org) demo_sub none none 0 true =
      SubmitOutcome.success := by
  unfold submit_form
  rw [show demo_forms.find? (fun f => f.key == "k1") = some demo_form from by decide]
  dsimp only
  rw [if_neg (by simp [hpass])]
  unfold post_origin
  rw [validate_demo]
  unfold post_validation
  rw [behavior_demo]
  dsimp only
  rw [show rate_check 0 none = (.allowed, some ⟨1, 60⟩) from rfl]
  dsimp only
  unfold captcha_stage
  rw [if_neg (by decide)]

/-! ## C3 — origin containment check (corrected) -/

/-- C3 (amended): with the form resolved and an Origin header present, the
origin check rejects with the forbidden outcome exactly when no configured
allowed domain occurs as a substring of the scheme-stripped origin-header
value; when it rejects it does so for every assignment of the form fields
(they are only read after the check passes). -/
theorem c3_origin_check_characterization (forms : List ChannelConfig)
    (form_key org : String) (fc : ChannelConfig)
    (hfind : forms.find? (fun f => f.key == form_key) = some fc) :
    ∀ (sub : FormSubmission) (behavior : Option PatternData) (rate : Option RateEntry)
      (now : Nat) (cok : Bool),
      submit_form forms form_key (some org) sub behavior rate now cok =
          SubmitOutcome.originNotAllowed ↔
        ¬ ∃ d ∈ fc.allowed_domains, substr_in d (strip_scheme org) = true := by
  intro sub behavior rate now cok
  unfold submit_form
  rw [hfind]
  dsimp only
  by_cases hany : (fc.allowed_domains.any fun d => substr_in d (strip_scheme org)) = true
  · rw [if_neg (by simp [hany])]
    simp only [List.any_eq_true] at hany
    constructor
    · intro h
      exact absurd h (post_origin_ne_originNotAllowed _ _ _ _ _ _)
    · intro h
      exact absurd hany h
  · rw [if_pos (by simpa using hany)]
    constructor
    · intro _ hex
      exact hany (List.any_eq_true.mpr hex)
    · intro _
      rfl

/-- Witness for C3: for Origin "https://other.org" none of the allowed
domains is contained in the origin domain, and the endpoint answers with the
forbidden outcome. -/
theorem c3_origin_check_characterization_witness :
    submit_form demo_forms "k1" (some "https://other.org") demo_sub none none 0 true =
      SubmitOutcome.originNotAllowed :=
  ((c3_origin_check_characterization demo_forms "k1" "https://other.org" demo_form
    (by decide)) demo_sub none none 0 true).mpr (by decide)

/-- C3 counterexample: with allowed domain "example.com" and Origin header
"https://evil-example.com", the origin-header domain "evil-example.com" is
not a substring of any configured allowed domain, so the claim as stated
demands a forbidden (403) rejection; yet the endpoint accepts the submission
and returns the success outcome, because the code tests containment in the
opposite direction (allowed domain inside origin domain). -/
theorem c3_counterexample :
    (∀ d ∈ demo_form.allowed_domains,
      substr_in (strip_scheme "https://evil-example.com") d = false) ∧
    submit_form demo_forms "k1" (some "https://evil-example.com") demo_sub none none 0 true =
      SubmitOutcome.success :=
  ⟨by decide, submit_demo_success _ (by decide)⟩

/-! ## C2 — AttributeError on every repeat submission -/

/-- C2: for every submission from an origin that already has a stored
BehaviorProfile, the behavioral-analysis step raises `AttributeError`: the
profile was serialized with `email_domains` as a JSON list, it is
deserialized as a list on the next read, and `.add` is then called on that
list.  Consequently a repeat submission that reaches the behavioral stage
(form resolved, origin accepted, fields valid) ends in the internal-error
outcome instead of reaching the rate limiter, the captcha check or
dispatch. -/
theorem c2_repeat_submission_attribute_error :
    (∀ (subs : List SubmissionRecord) (rn rc : Nat) (doms : List String) (fs : Nat)
      (s : FormSubmission) (now : Nat),
      is_suspicious_behavior (some ⟨subs, rn, rc, .jsonList doms, fs⟩) s now =
        .error .attributeError) ∧
    (∀ (forms : List ChannelConfig) (form_key org : String) (fc : ChannelConfig)
      (sub : FormSubmission) (subs : List SubmissionRecord) (rn rc : Nat)
      (doms : List String) (fs : Nat) (rate : Option RateEntry) (now : Nat) (cok : Bool),
      forms.find? (fun f => f.key == form_key) = some fc →
      fc.allowed_domains.any (fun d => substr_in d (strip_scheme org)) = true →
      validate sub = .ok () →
      submit_form forms form_key (some org) sub (some ⟨subs, rn, rc, .jsonList doms, fs⟩)
        rate now cok = .internalError .attributeError) := by
  have herr : ∀ (subs : List SubmissionRecord) (rn rc : Nat) (doms : List String)
      (fs : Nat) (s : FormSubmission) (now : Nat),
      is_suspicious_behavior (some ⟨subs, rn, rc, .jsonList doms, fs⟩) s now =
        .error .attributeError := by
    intro subs rn rc doms fs s now
    simp only [is_suspicious_behavior, domains_add]
  refine ⟨herr, ?_⟩
  intro forms form_key org fc sub subs rn rc doms fs rate now cok hfind hdom hval
  unfold submit_form
  rw [hfind]
  dsimp only
  rw [if_neg (by simp [hdom])]
  unfold post_origin
  rw [hval]
  unfold post_validation
  rw [herr subs rn rc doms fs sub now]

/-- Witness for C2: a second submission from the demo origin (whose stored
profile holds the JSON-deserialized domain list) fails with `AttributeError`,
and the endpoint answers with the internal-error outcome even though the
submission itself is valid. -/
theorem c2_repeat_submission_attribute_error_witness :
    is_suspicious_behavior (some demo_state) demo_sub 1 = .error .attributeError ∧
    submit_form demo_forms "k1" (some "https://example.com") demo_sub (some demo_state)
      none 1 true = .internalError .attributeError :=
  ⟨c2_repeat_submission_attribute_error.1 [⟨0, "Alice", "a@b.co", "hi :)", false, false⟩]
      0 0 ["b.co"] 0 demo_sub 1,
    c2_repeat_submission_attribute_error.2 demo_forms "k1" "https://example.com" demo_form
      demo_sub [⟨0, "Alice", "a@b.co", "hi :)", false, false⟩] 0 0 ["b.co"] 0 none 1 true
      (by decide) (by decide) validate_demo⟩

/-! ## C1 — cross-submission suspicion verdict (corrected) -/

/-- C1 (amended): whenever the behavioral analysis completes without error,
the suspicion verdict it returns is true exactly when the updated profile
records at least 2 submissions and ((randomNameRatio ≥ 0.8 and
randomBodyRatio ≥ 0.8 and at least 2 distinct email domains) or
randomBodyRatio ≥ 0.9).  (The three-submission scenario of the original
claim instead ends in an `AttributeError`, see the counterexample.) -/
theorem c1_suspicion_verdict (existing : Option PatternData) (s : FormSubmission)
    (now : Nat) (b : Bool) (saved : PatternData)
    (h : is_suspicious_behavior existing s now = .ok (b, saved)) :
    b = true ↔ 2 ≤ saved.submissions.length ∧
      (((saved.random_names : ℚ) / (saved.submissions.length : ℚ) ≥ 4/5 ∧
        (saved.random_content : ℚ) / (saved.submissions.length : ℚ) ≥ 4/5 ∧
        2 ≤ saved.email_domains.toList.length) ∨
        (saved.random_content : ℚ) / (saved.submissions.length : ℚ) ≥ 9/10) := by
  unfold is_suspicious_behavior at h
  cases existing with
  | none =>
    dsimp only at h
    cases hda : domains_add (DomainsField.pySet []) (email_domain s.email) with
    | error e => rw [hda] at h; simp at h
    | ok doms =>
      rw [hda] at h
      simp only [Except.ok.injEq, Prod.mk.injEq] at h
      obtain ⟨hb, hs⟩ := h
      subst hb
      subst hs
      dsimp only
      by_cases h2 : 2 ≤ (if 10 <
          ([] ++ [(⟨now, s.name, s.email, s.content, is_random_looking_string s.name,
            is_random_looking_string s.content⟩ : SubmissionRecord)]).length then
          ([] ++ [(⟨now, s.name, s.email, s.content, is_random_looking_string s.name,
            is_random_looking_string s.content⟩ : SubmissionRecord)]).drop
            (([] ++ [(⟨now, s.name, s.email, s.content, is_random_looking_string s.name,
              is_random_looking_string s.content⟩ : SubmissionRecord)]).length - 10)
          else ([] ++ [(⟨now, s.name, s.email, s.content, is_random_looking_string s.name,
            is_random_looking_string s.content⟩ : SubmissionRecord)])).length
      · rw [if_pos h2]
        split
        · simp_all [DomainsField.toList]
        · split
          · simp_all [DomainsField.toList]
          · simp_all [DomainsField.toList]
      · rw [if_neg h2]
        simp_all [DomainsField.toList]
  | some p =>
    dsimp only at h
    cases hda : domains_add p.email_domains (email_domain s.email) with
    | error e => rw [hda] at h; simp at h
    | ok doms =>
      rw [hda] at h
      simp only [Except.ok.injEq, Prod.mk.injEq] at h
      obtain ⟨hb, hs⟩ := h
      subst hb
      subst hs
      dsimp only
      split
      · split
        · simp_all [DomainsField.toList]
        · split
          · simp_all [DomainsField.toList]
          · simp_all [DomainsField.toList]
      · simp_all [DomainsField.toList]

/-- Witness for C1: the first demo submission completes the analysis with a
false verdict, and the amended equivalence instantiates to it. -/
theorem c1_suspicion_verdict_witness :
    is_suspicious_behavior none demo_sub 0 = .ok (false, demo_state) ∧
    (false = true ↔ 2 ≤ demo_state.submissions.length ∧
      (((demo_state.random_names : ℚ) / (demo_state.submissions.length : ℚ) ≥ 4/5 ∧
        (demo_state.random_content : ℚ) / (demo_state.submissions.length : ℚ) ≥ 4/5 ∧
        2 ≤ demo_state.email_domains.toList.length) ∨
        (demo_state.random_content : ℚ) / (demo_state.submissions.length : ℚ) ≥ 9/10)) :=
  ⟨behavior_demo, c1_suspicion_verdict none demo_sub 0 false demo_state behavior_demo⟩

/-- C1 counterexample: two submissions with random-looking name and body
("bcdfghjk") and two distinct email domains ("a.com", "b.org") arrive from
one origin, then a legitimate third one.  The first call stores a profile;
the second and third calls both raise `AttributeError` instead of producing
a verdict, and the endpoint answers the third submission with the
internal-error outcome — not with the suspicion flag and bad-request error
the claim asserts. -/
theorem c1_counterexample :
    is_random_looking_string rand_sub2.name = true ∧
    is_random_looking_string rand_sub2.content = true ∧
    is_suspicious_behavior none rand_sub1 0 = .ok (false, rand_state1) ∧
    is_suspicious_behavior (some rand_state1) rand_sub2 1 = .error .attributeError ∧
    is_suspicious_behavior (some rand_state1) demo_sub 2 = .error .attributeError ∧
    submit_form demo_forms "k1" (some "https://example.com") demo_sub (some rand_state1)
      none 2 true = .internalError .attributeError := by
  refine ⟨is_random_bcdfghjk, is_random_bcdfghjk, behavior_first, ?_, ?_, ?_⟩
  · simp only [is_suspicious_behavior, rand_state1, domains_add]
  · simp only [is_suspicious_behavior, rand_state1, domains_add]
  · unfold submit_form
    rw [show demo_forms.find? (fun f => f.key == "k1") = some demo_form from by decide]
    dsimp only
    rw [if_neg (by simp [show (demo_form.allowed_domains.any fun d =>
      substr_in d (strip_scheme "https://example.com")) = true from by decide])]
    unfold post_origin
    rw [validate_demo]
    unfold post_validation
    rw [show is_suspicious_behavior (some rand_state1) demo_sub 2 =
      .error .attributeError from by
        simp only [is_suspicious_behavior, rand_state1, domains_add]]

/-! ## C4 — consonant-heavy rejection (corrected) -/

/-- If Layer A classifies a submission as spam, `validate` raises (whatever
the earlier field checks do). -/
theorem validate_error_of_spam {s : FormSubmission} (hspam : is_spam s = true) :
    ∃ e, validate s = Except.error e := by
  unfold validate
  by_cases h1 : stripped_empty s.name = true ∨ 100 < s.name.length
  · rw [if_pos h1]; exact ⟨_, rfl⟩
  rw [if_neg h1]
  by_cases h2 : stripped_empty s.email = true ∨ ¬ substr_in "@" s.email = true ∨
    254 < s.email.length
  · rw [if_pos h2]; exact ⟨_, rfl⟩
  rw [if_neg h2]
  by_cases h3 : stripped_empty s.subject = true ∨ 200 < s.subject.length
  · rw [if_pos h3]; exact ⟨_, rfl⟩
  rw [if_neg h3]
  by_cases h4 : stripped_empty s.content = true ∨ 10000 < s.content.length
  · rw [if_pos h4]; exact ⟨_, rfl⟩
  rw [if_neg h4]
  by_cases h5 : website_filled s.website = true
  · rw [if_pos h5]; exact ⟨_, rfl⟩
  rw [if_neg h5, if_pos hspam]
  exact ⟨_, rfl⟩

/-- The consonant fraction of the cleaned smash name exceeds 0.8. -/
theorem consonant_frac_smash : consonant_frac (clean_text smash_sub.name) > 4/5 := by
  have h1 : consonant_count (clean_text smash_sub.name) = 6 := by decide
  have h2 : vowel_count (clean_text smash_sub.name) = 1 := by decide
  unfold consonant_frac
  rw [h1, h2]
  norm_num

/-- C4 (amended): in classifier Layer A, for every submission whose cleaned
name is longer than 3 characters (or whose cleaned body is longer than 5),
containing at least one consonant and at least one vowel, the message is
rejected whenever the consonant fraction `consonants / (consonants + vowels)`
of that cleaned text exceeds 0.8.  (The literal consonant-to-vowel quotient
`consonants / vowels` is not what the code compares — see the
counterexample.) -/
theorem c4_consonant_fraction_reject (s : FormSubmission)
    (h : (3 < (clean_text s.name).length ∧ 0 < consonant_count (clean_text s.name) ∧
          0 < vowel_count (clean_text s.name) ∧
          consonant_frac (clean_text s.name) > 4/5) ∨
         (5 < (clean_text s.content).length ∧ 0 < consonant_count (clean_text s.content) ∧
          0 < vowel_count (clean_text s.content) ∧
          consonant_frac (clean_text s.content) > 4/5)) :
    is_spam s = true ∧ ∃ e, validate s = Except.error e := by
  have hspam : is_spam s = true := by
    simp only [is_spam]
    cases h with
    | inl h1 => rw [if_pos h1]
    | inr h2 =>
      by_cases hc1 : 3 < (clean_text s.name).length ∧
          0 < consonant_count (clean_text s.name) ∧
          0 < vowel_count (clean_text s.name) ∧ consonant_frac (clean_text s.name) > 4/5
      · rw [if_pos hc1]
      · rw [if_neg hc1]
        by_cases hc2 : 5 < (clean_text s.name).length ∧
            has_triple_repeat (clean_text s.name) = true
        · rw [if_pos hc2]
        · rw [if_neg hc2, if_pos h2]
  exact ⟨hspam, validate_error_of_spam hspam⟩

/-- Witness for C4: the name "bcdfgha" has a consonant fraction of 6/7 and
the submission is rejected as spam. -/
theorem c4_consonant_fraction_reject_witness :
    is_spam smash_sub = true ∧ ∃ e, validate smash_sub = Except.error e :=
  c4_consonant_fraction_reject smash_sub
    (Or.inl ⟨by decide, by decide, by decide, consonant_frac_smash⟩)

/-- C4 counterexample: the cleaned name "plan" is longer than 3 characters
and its consonant-to-vowel quotient is 3/1 = 3 > 0.8, yet the submission is
not rejected: Layer A classifies it as non-spam and validation accepts it
(the code compares consonants/(consonants+vowels) = 3/4, which is below
0.8). -/
theorem c4_counterexample :
    3 < (clean_text plan_sub.name).length ∧
    0 < consonant_count (clean_text plan_sub.name) ∧
    0 < vowel_count (clean_text plan_sub.name) ∧
    (consonant_count (clean_text plan_sub.name) : ℚ) /
      (vowel_count (clean_text plan_sub.name) : ℚ) > 4/5 ∧
    is_spam plan_sub = false ∧ validate plan_sub = Except.ok () := by
  refine ⟨by decide, by decide, by decide, ?_, is_spam_plan, validate_plan⟩
  have h1 : consonant_count (clean_text plan_sub.name) = 3 := by decide
  have h2 : vowel_count (clean_text plan_sub.name) = 1 := by decide
  rw [h1, h2]
  norm_num

/-! ## C10 — the mixed-case entropy branch is unreachable -/

/-- An ASCII lower-case character is not upper-case. -/
theorem lower_not_upper (c : Char) (h : c.isLower = true) : c.isUpper = false := by
  simp [Char.isLower, Char.isUpper, UInt32.le_def, UInt32.lt_def, BitVec.le_def,
    BitVec.lt_def] at *
  omega

/-- C10: the mixed-case high-entropy branch of `_is_high_entropy_random`
(entropy > 3.6 with both an upper- and a lower-case letter) is unreachable
from its call sites: Layer A passes only `clean_text`-cleaned strings, which
contain no upper-case character, so for every input string the cleaned text
defeats the branch condition, and the function returns true exactly via the
`entropy > 3.8` with `length ≥ 8` branch (no text of the call-site shape is
rejected for an entropy in (3.6, 3.8]). -/
theorem c10_mixed_case_branch_unreachable (s : String) :
    ((clean_text s).toList.any Char.isUpper) = false ∧
    (is_high_entropy_random (clean_text s) = true ↔
      6 ≤ (clean_text s).length ∧
      ((clean_text s).length ≤ 15 ∨ common_word_count (py_lower (clean_text s)) ≤ 2) ∧
      calculate_entropy (clean_text s) > 3.8 ∧ 8 ≤ (clean_text s).length) := by
  have hup : ((clean_text s).toList.any Char.isUpper) = false := by
    by_contra hcon
    rw [Bool.not_eq_false] at hcon
    obtain ⟨c, hc, hcu⟩ := List.any_eq_true.mp hcon
    have hcl : c.isLower = true := by
      have hc' := hc
      simp [clean_text] at hc'
      exact hc'.2
    rw [lower_not_upper c hcl] at hcu
    cases hcu
  refine ⟨hup, ?_⟩
  unfold is_high_entropy_random
  by_cases hl : (clean_text s).length < 6
  · rw [if_pos hl]
    simp only [Bool.false_eq_true, false_iff]
    exact fun h => absurd h.1 (by omega)
  rw [if_neg hl]
  by_cases hw : 15 < (clean_text s).length ∧
      3 ≤ common_word_count (py_lower (clean_text s))
  · rw [if_pos hw]
    simp only [Bool.false_eq_true, false_iff]
    intro h
    rcases h.2.1 with h15 | hcw
    · omega
    · omega
  rw [if_neg hw]
  by_cases hmain : calculate_entropy (clean_text s) > 3.8 ∧ 8 ≤ (clean_text s).length
  · rw [if_pos hmain]
    simp only [true_iff]
    refine ⟨by omega, ?_, hmain⟩
    by_cases h15 : (clean_text s).length ≤ 15
    · exact Or.inl h15
    · exact Or.inr (by omega)
  · rw [if_neg hmain]
    rw [if_neg (fun hk => absurd hk.2.1 (by rw [hup]; decide))]
    simp only [Bool.false_eq_true, false_iff]
    exact fun h => hmain ⟨h.2.2.1, h.2.2.2⟩

/-! ## C7 — entropy properties -/

/-- Deduplication does not change the character set. -/
theorem dedup_toFinset (l : List Char) : l.dedup.toFinset = l.toFinset := by
  ext a
  simp [List.mem_toFinset, List.mem_dedup]

/-- The entropy accumulation as a `Finset` sum over the distinct
characters. -/
theorem entropy_sum_eq_finset (l : List Char) :
    entropy_sum l = ∑ c in l.toFinset,
      -(((l.count c : ℝ) / (l.length : ℝ)) * Real.logb 2 ((l.count c : ℝ) / (l.length : ℝ))) := by
  unfold entropy_sum
  rw [← List.sum_toFinset _ (List.nodup_dedup l), dedup_toFinset]
  rw [← Finset.sum_neg_distrib]

/-- The entropy accumulation is a function of counts and length only, hence
permutation invariant. -/
theorem entropy_sum_perm {l l' : List Char} (h : l.Perm l') :
    entropy_sum l = entropy_sum l' := by
  rw [entropy_sum_eq_finset, entropy_sum_eq_finset]
  have ht : l.toFinset = l'.toFinset := by
    ext a
    simp [List.mem_toFinset, h.mem_iff]
  rw [ht, h.length_eq]
  refine Finset.sum_congr rfl (fun c hc => ?_)
  rw [h.count_eq]

/-- Every accumulated term is nonnegative since each probability lies in
(0, 1]. -/
theorem entropy_sum_nonneg (l : List Char) : 0 ≤ entropy_sum l := by
  rw [entropy_sum_eq_finset]
  refine Finset.sum_nonneg (fun c hc => ?_)
  rw [neg_nonneg]
  rcases Nat.eq_zero_or_pos l.length with h0 | hpos
  · rw [List.length_eq_zero] at h0
    simp [h0] at hc
  · have hmem : c ∈ l := List.mem_toFinset.mp hc
    have hc1 : 0 < l.count c := List.count_pos_iff.mpr hmem
    have hle : l.count c ≤ l.length := List.count_le_length c l
    have hp0 : (0 : ℝ) ≤ (l.count c : ℝ) / (l.length : ℝ) := by positivity
    have hp1 : (l.count c : ℝ) / (l.length : ℝ) ≤ 1 := by
      rw [div_le_one (by exact_mod_cast hpos)]
      exact_mod_cast hle
    exact mul_nonpos_of_nonneg_of_nonpos hp0 (Real.logb_nonpos one_lt_two hp0 hp1)



/-- Jensen bound: the entropy of a nonempty list is at most log2 of its
number of distinct characters. -/
theorem entropy_sum_le_logb_dedup (l : List Char) (hne : l ≠ []) :
    entropy_sum l ≤ Real.logb 2 (l.dedup.length : ℝ) := by
  have hN : 0 < l.length := List.length_pos.mpr hne
  have hNR : (0 : ℝ) < (l.length : ℝ) := by exact_mod_cast hN
  have hnonempty : l.toFinset.Nonempty := by
    obtain ⟨c, hc⟩ := List.exists_mem_of_ne_nil l hne
    exact ⟨c, List.mem_toFinset.mpr hc⟩
  have hn : 0 < l.toFinset.card := Finset.card_pos.mpr hnonempty
  have hnR : (0 : ℝ) < (l.toFinset.card : ℝ) := by exact_mod_cast hn
  have hsum1 : ∑ c in l.toFinset, (l.count c : ℝ) / (l.length : ℝ) = 1 := by
    rw [← Finset.sum_div]
    rw [show ∑ c in l.toFinset, ((l.count c : ℝ)) = (l.length : ℝ) by
      norm_cast
      exact List.sum_toFinset_count_eq_length l]
    exact div_self (ne_of_gt hNR)
  have hjen := (Real.concaveOn_negMulLog).le_map_sum
    (t := l.toFinset) (w := fun _ => ((l.toFinset.card : ℝ))⁻¹)
    (p := fun c => (l.count c : ℝ) / (l.length : ℝ))
    (fun i _ => by positivity)
    (by rw [Finset.sum_const, nsmul_eq_mul, mul_inv_cancel₀ (ne_of_gt hnR)])
    (fun i _ => Set.mem_Ici.mpr (by positivity))
  simp only [smul_eq_mul] at hjen
  rw [← Finset.mul_sum, ← Finset.mul_sum, hsum1, mul_one] at hjen
  -- hjen : card⁻¹ * ∑ negMulLog p ≤ negMulLog card⁻¹
  have hlog : Real.negMulLog ((l.toFinset.card : ℝ))⁻¹ =
      ((l.toFinset.card : ℝ))⁻¹ * Real.log (l.toFinset.card : ℝ) := by
    rw [Real.negMulLog, Real.log_inv]
    ring
  rw [hlog] at hjen
  have hsumle : ∑ c in l.toFinset, Real.negMulLog ((l.count c : ℝ) / (l.length : ℝ)) ≤
      Real.log (l.toFinset.card : ℝ) := by
    have := mul_le_mul_of_nonneg_left hjen (le_of_lt hnR)
    rw [← mul_assoc, ← mul_assoc, mul_inv_cancel₀ (ne_of_gt hnR), one_mul, one_mul] at this
    exact this
  have hentropy : entropy_sum l =
      (∑ c in l.toFinset, Real.negMulLog ((l.count c : ℝ) / (l.length : ℝ))) / Real.log 2 := by
    rw [entropy_sum_eq_finset, Finset.sum_div]
    refine Finset.sum_congr rfl (fun c hc => ?_)
    rw [Real.negMulLog, Real.logb]
    ring
  rw [hentropy, Real.logb, ← List.card_toFinset]
  exact (div_le_div_iff_of_pos_right (Real.log_pos one_lt_two)).mpr hsumle



/-- A nonempty constant list deduplicates to a singleton. -/
theorem dedup_replicate (n : Nat) (c : Char) (h : 1 ≤ n) :
    (List.replicate n c).dedup = [c] := by
  induction n with
  | zero => omega
  | succ k ih =>
    rcases Nat.eq_zero_or_pos k with h0 | hk
    · subst h0
      simp
    · rw [List.replicate_succ, List.dedup_cons_of_mem (by simp [List.mem_replicate]; omega)]
      exact ih hk

/-- A constant list accumulates zero entropy. -/
theorem entropy_sum_replicate (n : Nat) (c : Char) (h : 1 ≤ n) :
    entropy_sum (List.replicate n c) = 0 := by
  unfold entropy_sum
  rw [dedup_replicate n c h]
  simp only [List.map_cons, List.map_nil, List.sum_cons, List.sum_nil, add_zero,
    List.count_replicate_self, List.length_replicate]
  rw [div_self (by exact_mod_cast Nat.one_le_iff_ne_zero.mp h)]
  rw [Real.logb_one]
  ring

/-- C7: the classifier entropy `_calculate_entropy` is invariant under any
permutation of the characters of the string; for every string it lies
between 0 and log2 of the number of distinct characters of the lowercased
string; and a string consisting of one repeated character has entropy 0. -/
theorem c7_entropy_properties :
    (∀ s s' : String, s.toList.Perm s'.toList →
      calculate_entropy s = calculate_entropy s') ∧
    (∀ s : String, 0 ≤ calculate_entropy s ∧
      calculate_entropy s ≤ Real.logb 2 (((s.toList.map Char.toLower).dedup.length : ℝ))) ∧
    (∀ (n : Nat) (c : Char), calculate_entropy (String.mk (List.replicate n c)) = 0) := by
  refine ⟨?_, ?_, ?_⟩
  · intro s s' hp
    unfold calculate_entropy
    have hlen : s.length = s'.length := hp.length_eq
    rw [hlen]
    by_cases h2 : s'.length < 2
    · rw [if_pos h2, if_pos h2]
    · rw [if_neg h2, if_neg h2]
      exact entropy_sum_perm (hp.map Char.toLower)
  · intro s
    unfold calculate_entropy
    by_cases h2 : s.length < 2
    · rw [if_pos h2]
      refine ⟨le_refl 0, ?_⟩
      rcases Nat.eq_zero_or_pos ((s.toList.map Char.toLower).dedup.length) with h0 | hpos
      · rw [h0]
        simp
      · exact Real.logb_nonneg one_lt_two (by exact_mod_cast hpos)
    · rw [if_neg h2]
      have hne : (s.toList.map Char.toLower) ≠ [] := by
        intro hnil
        apply h2
        have hz : s.toList.length = 0 := by simpa using congrArg List.length hnil
        have : s.length = s.toList.length := rfl
        omega
      exact ⟨entropy_sum_nonneg _, entropy_sum_le_logb_dedup _ hne⟩
  · intro n c
    unfold calculate_entropy
    by_cases h2 : (String.mk (List.replicate n c)).length < 2
    · rw [if_pos h2]
    · rw [if_neg h2]
      have hlen : (String.mk (List.replicate n c)).length = n := by
        show (List.replicate n c).length = n
        exact List.length_replicate n c
      have hn : 1 ≤ n := by omega
      show entropy_sum ((List.replicate n c).map Char.toLower) = 0
      rw [List.map_replicate]
      exact entropy_sum_replicate n c.toLower hn

/-- Witness for C7: permutation invariance applied to the concrete strings
"ab" and "ba". -/
theorem c7_entropy_properties_witness : calculate_entropy "ab" = calculate_entropy "ba" :=
  c7_entropy_properties.1 "ab" "ba" (by decide)

/-! ## C6 — honeypot -/

/-- C6: for every submission whose honeypot field `website` is present and
non-blank after trimming, validation rejects the submission, and the endpoint
(once it has resolved the form and accepted the origin) answers with the
bad-request outcome, regardless of whether the other fields are valid. -/
theorem c6_honeypot_rejected (s : FormSubmission) (w : String) (hw : s.website = some w)
    (hnb : ¬ stripped_empty w = true) :
    (∃ e, validate s = Except.error e) ∧
    ∀ (forms : List ChannelConfig) (form_key org : String) (fc : ChannelConfig)
      (behavior : Option PatternData) (rate : Option RateEntry) (now : Nat) (cok : Bool),
      forms.find? (fun f => f.key == form_key) = some fc →
      fc.allowed_domains.any (fun d => substr_in d (strip_scheme org)) = true →
      submit_form forms form_key (some org) s behavior rate now cok =
        SubmitOutcome.invalidSubmission := by
  have hwf : website_filled s.website = true := by
    rw [hw]
    unfold website_filled
    have hne : ¬ (w == "") = true := by
      intro hweq
      apply hnb
      rw [eq_of_beq hweq]
      decide
    simp only [Bool.and_eq_true, Bool.not_eq_true']
    exact ⟨by simpa using hne, by simpa using hnb⟩
  refine ⟨validate_error_of_website hwf, ?_⟩
  intro forms form_key org fc behavior rate now cok hfind hdom
  exact pipeline_invalid hfind hdom (validate_error_of_website hwf)

/-- Witness for C6: a concrete submission with a filled honeypot,
otherwise-valid fields, a resolvable form and an allowed origin is rejected
with the bad-request outcome. -/
theorem c6_honeypot_rejected_witness :
    bot_sub.website = some "spam-link" ∧
    (∃ e, validate bot_sub = Except.error e) ∧
    submit_form demo_forms "k1" (some "https://example.com") bot_sub none none 0 true =
      SubmitOutcome.invalidSubmission := by
  refine ⟨rfl, ?_, ?_⟩
  · exact (c6_honeypot_rejected bot_sub "spam-link" rfl (by decide)).1
  · exact (c6_honeypot_rejected bot_sub "spam-link" rfl (by decide)).2 demo_forms "k1"
      "https://example.com" demo_form none none 0 true (by decide) (by decide)

/-! ## C5 — rate limiter -/

/-- A live counter below the threshold is incremented and its expiry reset. -/
theorem rate_check_alive {now c exp : Nat} (h : now < exp) (hc : c < 5) :
    rate_check now (some ⟨c, exp⟩) = (.allowed, some ⟨c + 1, now + 60⟩) := by
  unfold rate_check
  dsimp only
  rw [if_pos h]
  dsimp only
  rw [if_neg (by omega)]

/-- A live counter at or above the threshold rejects and leaves the entry
unchanged (the exception is raised before `incr`/`expire`). -/
theorem rate_check_reject {now c exp : Nat} (h : now < exp) (hc : 5 ≤ c) :
    rate_check now (some ⟨c, exp⟩) = (.tooMany, some ⟨c, exp⟩) := by
  unfold rate_check
  dsimp only
  rw [if_pos h]
  dsimp only
  rw [if_pos hc]

/-- An expired counter behaves like an absent key: `incr` recreates it at 1. -/
theorem rate_check_expired {now c exp : Nat} (h : exp ≤ now) :
    rate_check now (some ⟨c, exp⟩) = (.allowed, some ⟨1, now + 60⟩) := by
  unfold rate_check
  dsimp only
  rw [if_neg (by omega)]

/-- C5: for a fixed `(origin, channelKey)` counter, five submissions inside a
60-second window each pass the check, incrementing the counter and resetting
its 60-second expiry; a 6th submission while the counter is live is rejected
with the too-many-requests error (leaving the state untouched); once the
window has elapsed the counter resets and the next submission passes with a
fresh count of 1. -/
theorem c5_rate_limit_window (t1 t2 t3 t4 t5 t6 t7 : Nat)
    (h12 : t1 ≤ t2) (h23 : t2 ≤ t3) (h34 : t3 ≤ t4) (h45 : t4 ≤ t5) (h56 : t5 ≤ t6)
    (hwin : t6 < t1 + 60) (hel : t5 + 60 ≤ t7) :
    rate_check t1 none = (.allowed, some ⟨1, t1 + 60⟩) ∧
    rate_check t2 (some ⟨1, t1 + 60⟩) = (.allowed, some ⟨2, t2 + 60⟩) ∧
    rate_check t3 (some ⟨2, t2 + 60⟩) = (.allowed, some ⟨3, t3 + 60⟩) ∧
    rate_check t4 (some ⟨3, t3 + 60⟩) = (.allowed, some ⟨4, t4 + 60⟩) ∧
    rate_check t5 (some ⟨4, t4 + 60⟩) = (.allowed, some ⟨5, t5 + 60⟩) ∧
    rate_check t6 (some ⟨5, t5 + 60⟩) = (.tooMany, some ⟨5, t5 + 60⟩) ∧
    rate_check t7 (some ⟨5, t5 + 60⟩) = (.allowed, some ⟨1, t7 + 60⟩) := by
  refine ⟨rfl, ?_, ?_, ?_, ?_, ?_, ?_⟩
  · exact rate_check_alive (by omega) (by omega)
  · exact rate_check_alive (by omega) (by omega)
  · exact rate_check_alive (by omega) (by omega)
  · exact rate_check_alive (by omega) (by omega)
  · exact rate_check_reject (by omega) (by omega)
  · exact rate_check_expired (by omega)

/-- Witness for C5 at the concrete instants 0, 10, 20, 30, 40, 50 and 110. -/
theorem c5_rate_limit_window_witness :
    rate_check 0 none = (.allowed, some ⟨1, 60⟩) ∧
    rate_check 10 (some ⟨1, 60⟩) = (.allowed, some ⟨2, 70⟩) ∧
    rate_check 20 (some ⟨2, 70⟩) = (.allowed, some ⟨3, 80⟩) ∧
    rate_check 30 (some ⟨3, 80⟩) = (.allowed, some ⟨4, 90⟩) ∧
    rate_check 40 (some ⟨4, 90⟩) = (.allowed, some ⟨5, 100⟩) ∧
    rate_check 50 (some ⟨5, 100⟩) = (.tooMany, some ⟨5, 100⟩) ∧
    rate_check 110 (some ⟨5, 100⟩) = (.allowed, some ⟨1, 170⟩) :=
  c5_rate_limit_window 0 10 20 30 40 50 110 (by decide) (by decide) (by decide)
    (by decide) (by decide) (by decide) (by decide)

/-! ## C8 — first-match subject resolution -/

/-- `List.find?` returns the element at the first index whose predicate
holds. -/
theorem find?_of_first_index {α : Type} (p : α → Bool) :
    ∀ (l : List α) (i : Nat) (hi : i < l.length), p (l.get ⟨i, hi⟩) = true →
      (∀ j (hj : j < l.length), j < i → p (l.get ⟨j, hj⟩) = false) →
      l.find? p = some (l.get ⟨i, hi⟩)
  | [], i, hi, _, _ => absurd hi (by simp)
  | a :: l, 0, _, hp, _ => by
    have hpa : p a = true := hp
    rw [List.find?_cons_of_pos _ hpa]
    rfl
  | a :: l, i + 1, hi, hp, hbefore => by
    have ha : p a = false := hbefore 0 (by simp) (by omega)
    rw [List.find?_cons_of_neg _ (by simp [ha])]
    exact find?_of_first_index p l i (by simpa using hi) hp
      (fun j hj hji => hbefore (j + 1) (by simpa using hj) (by omega))

/-- C8: poll-path subject resolution is a deterministic first-match search:
for any configured subject list, the selected entry is the one at the first
position (in insertion order) whose subject string is a prefix of the mail
subject; in particular, for subject "Support Request — urgent" with the
configured subjects ["Support Request", "Billing"] in that order, the first
entry is selected. -/
theorem c8_first_match_template
    (subjects : List (String × String)) (subj : String) (i : Nat)
    (hi : i < subjects.length)
    (hp : starts_with subj (subjects.get ⟨i, hi⟩).1 = true)
    (hbefore : ∀ j (hj : j < subjects.length), j < i →
      starts_with subj (subjects.get ⟨j, hj⟩).1 = false) :
    resolve_template subjects subj = some (subjects.get ⟨i, hi⟩) ∧
    resolve_template [("Support Request", "templateA"), ("Billing", "templateB")]
      "Support Request — urgent" = some ("Support Request", "templateA") := by
  constructor
  · exact find?_of_first_index _ subjects i hi hp hbefore
  · decide

/-- Witness for C8 at the concrete configuration of the claim. -/
theorem c8_first_match_template_witness :
    resolve_template [("Support Request", "templateA"), ("Billing", "templateB")]
      "Support Request — urgent" = some ("Support Request", "templateA") :=
  (c8_first_match_template
    [("Support Request", "templateA"), ("Billing", "templateB")]
    "Support Request — urgent" 0 (by decide) (by decide)
    (fun j hj hji => absurd hji (by omega))).1

/-! ## C9 — poll-loop drop and retry semantics -/

/-- C9: a polled unread message whose To address matches no configured alias,
or whose subject matches no configured subject, is skipped: no reply is
attempted and it is not marked read (the outcome of a pass is a pure function
of the configuration and message, so every later pass skips it identically).
A message is marked read exactly when a reply was attempted and the send
succeeded; in particular a message whose reply send fails is left unread. -/
theorem c9_poll_skip_and_mark_read (ie : List String) (rc : List (String × AliasConfig))
    (m : MailMessage) (send_ok : Bool) :
    ((∀ a ∈ rc, substr_in (py_lower a.1) (py_lower m.to_addr) = false) →
      process_message ie rc m send_ok = PollResult.skip) ∧
    (∀ al cfg,
      rc.find? (fun a => substr_in (py_lower a.1) (py_lower m.to_addr)) = some (al, cfg) →
      (∀ p ∈ cfg.subjects, starts_with m.subject p.1 = false) →
      process_message ie rc m send_ok = PollResult.skip) ∧
    ((process_message ie rc m send_ok).marked_read = true ↔
      (process_message ie rc m send_ok).attempted_reply = true ∧ send_ok = true) := by
  by_cases hinst :
      (ie.any fun e => substr_in (py_lower e) (py_lower m.to_addr)) = true
  case neg =>
    have hskip : process_message ie rc m send_ok = PollResult.skip := by
      unfold process_message
      rw [if_pos (by simpa using hinst)]
    exact ⟨fun _ => hskip, fun _ _ _ _ => hskip, by simp [hskip, PollResult.skip]⟩
  case pos =>
    cases hfind : rc.find? (fun a => substr_in (py_lower a.1) (py_lower m.to_addr)) with
    | none =>
      have hskip : process_message ie rc m send_ok = PollResult.skip := by
        unfold process_message
        rw [if_neg (by simpa using hinst), hfind]
      refine ⟨fun _ => hskip, ?_, by simp [hskip, PollResult.skip]⟩
      intro al cfg h _
      exact absurd h (by simp)
    | some ac =>
      obtain ⟨al', cfg'⟩ := ac
      have hpred := List.find?_some hfind
      have hmem := List.mem_of_find?_eq_some hfind
      have hstep : process_message ie rc m send_ok = process_alias cfg' m send_ok := by
        unfold process_message
        rw [if_neg (by simpa using hinst), hfind]
      refine ⟨?_, ?_, ?_⟩
      · intro hall
        rw [hall _ hmem] at hpred
        cases hpred
      · intro al cfg h hsubj
        injection h with h
        injection h with h1 h2
        subst h1 h2
        have hres : resolve_template cfg'.subjects m.subject = none := by
          unfold resolve_template
          exact List.find?_eq_none.mpr (fun p hp => by simp [hsubj p hp])
        rw [hstep]
        unfold process_alias
        rw [hres]
      · rw [hstep]
        cases hres : resolve_template cfg'.subjects m.subject with
        | none =>
          have : process_alias cfg' m send_ok = PollResult.skip := by
            unfold process_alias
            rw [hres]
          simp [this, PollResult.skip]
        | some tp =>
          have hfld : process_alias cfg' m send_ok = process_fields m send_ok := by
            unfold process_alias
            rw [hres]
          rw [hfld]
          unfold process_fields
          by_cases hc : (truthy (extract_fields m.body).email &&
              truthy (extract_fields m.body).subject) = true
          · rw [if_pos hc]
            cases send_ok with
            | false => simp
            | true => simp
          · rw [if_neg hc]
            simp [PollResult.skip]

/-- Witness for C9: a message addressed to nobody in the alias table is
skipped (not replied to, not marked read). -/
theorem c9_poll_skip_and_mark_read_witness :
    process_message ["info@x.com"] [("info@x.com", ⟨[("Hi", "tmpl")], "sig"⟩)]
      ⟨"nobody@else.org", "Hi", "body"⟩ true = PollResult.skip :=
  (c9_poll_skip_and_mark_read ["info@x.com"] [("info@x.com", ⟨[("Hi", "tmpl")], "sig"⟩)]
    ⟨"nobody@else.org", "Hi", "body"⟩ true).1 (by decide)

end MailBridge
